import Mathlib

/-!
Verification of the derived air-quality metric pipeline of the BME688
repository (the BSEC2 variant of `src/src/main.cpp`).

Modelling conventions:
* C `float` quantities that carry sensor readings and derived indices are
  embedded as `ℚ`; a value that the code can hold as `NAN` is embedded as
  `Option ℚ` with `none` standing for `NAN` (the code only ever tests such
  values with `isnan`, never with arithmetic on the NaN itself).
* `millis()` timestamps (`unsigned long`) are embedded as `ℕ`; the code's
  unsigned subtractions `now - earlier` are taken at non-wrapping inputs,
  which is truncated subtraction on `ℕ`.
* The altitude formula uses a real exponent, so it is embedded over `ℝ`.
* A "sampling cycle" is one execution of the measurement block of `loop`
  (the body guarded by `got && (now - lastUpdate >= UPDATE_INTERVAL_MS)`),
  described by the wall-clock time `now` and the canonical gas resistance
  `vals.gas_kOhm` it observes.
-/

/-- Constant `BASELINE_DELAY_MS` (main.cpp line 351): lock the baseline 2 minutes
after boot. -/
def BASELINE_DELAY_MS : ℕ := 2 * 60 * 1000

/-- Constant `WINDOW_UPDATE_INTERVAL_MS` (main.cpp line 352): window-minimum reset
period, 30 seconds. -/
def WINDOW_UPDATE_INTERVAL_MS : ℕ := 30 * 1000

/-- The simple-VOC globals of main.cpp lines 348-353: `baselineEstablished`,
`gasBaseline` (`NAN` as `none`), `gasMinWindow` (`NAN` as `none`) and
`lastWindowUpdate`. -/
structure SimpleVocState where
  baselineEstablished : Bool
  gasBaseline : Option ℚ
  gasMinWindow : Option ℚ
  lastWindowUpdate : ℕ
deriving Repr, DecidableEq

/-- Boot values of the simple-VOC globals (main.cpp lines 348-353):
`baselineEstablished = false`, `gasBaseline = NAN`, `gasMinWindow = NAN`,
`lastWindowUpdate = 0`. -/
def initialState : SimpleVocState :=
  { baselineEstablished := false
    gasBaseline := none
    gasMinWindow := none
    lastWindowUpdate := 0 }

/-- One sampling cycle's inputs: the wall-clock time `now` and the canonical
gas resistance `vals.gas_kOhm` of that cycle. -/
structure SampleCycle where
  time : ℕ
  gas_kOhm : ℚ
deriving Repr, DecidableEq

/-- Function `computeSimpleVocIndex` (main.cpp lines 355-367).  Returns the index
(`NAN` as `none`) together with the updated state, since the function
mutates `gasMinWindow`:
the guard mirrors `!baselineEstablished || isnan(gasBaseline) ||
gasBaseline <= 0`; on the early return the state is untouched; otherwise
`gasMinWindow` is seeded when `NAN` and lowered when the current reading is
smaller, and the returned index is `(gasBaseline - gasCurrent) / gasBaseline
* 100` clamped below at `0`. -/
def computeSimpleVocIndex (st : SimpleVocState) (gasCurrent : ℚ) :
    Option ℚ × SimpleVocState :=
  if st.baselineEstablished = false then (none, st)
  else
    match st.gasBaseline with
    | none => (none, st)
    | some b =>
      if b ≤ 0 then (none, st)
      else
        let mw0 := match st.gasMinWindow with
          | none => gasCurrent
          | some m => m
        let mw := if gasCurrent < mw0 then gasCurrent else mw0
        let index := (b - gasCurrent) / b * 100
        let clamped := if index < 0 then 0 else index
        (some clamped, { st with gasMinWindow := some mw })

/-- The labels returned by `classifySimpleVoc` (main.cpp lines 369-376),
in source order of the branches.  The source strings are Chinese:
`Building` is the `isnan` branch, then `Excellent`, `Normal`, `Elevated`,
`Poor` and `Severe` for the numeric bands. -/
inductive VocLabel where
  | Building
  | Excellent
  | Normal
  | Elevated
  | Poor
  | Severe
deriving Repr, DecidableEq

/-- Function `classifySimpleVoc` (main.cpp lines 369-376): `isnan` maps to the
building label, then bands `< 2`, `< 10`, `< 25`, `< 50`, else severe. -/
def classifySimpleVoc : Option ℚ → VocLabel
  | none => VocLabel.Building
  | some index =>
    if index < 2 then VocLabel.Excellent
    else if index < 10 then VocLabel.Normal
    else if index < 25 then VocLabel.Elevated
    else if index < 50 then VocLabel.Poor
    else VocLabel.Severe

/-- Baseline-establishment block of `loop` (main.cpp lines 449-455): when
not yet established and `now > BASELINE_DELAY_MS`, lock `gasBaseline` to the
cycle's reading, set `baselineEstablished`, and initialise `gasMinWindow` to
the baseline. -/
def establishStep (st : SimpleVocState) (c : SampleCycle) : SimpleVocState :=
  if st.baselineEstablished = false ∧ BASELINE_DELAY_MS < c.time then
    { st with baselineEstablished := true
              gasBaseline := some c.gas_kOhm
              gasMinWindow := some c.gas_kOhm }
  else st

/-- Window-reset block of `loop` (main.cpp lines 457-462): while
established, when `now - lastWindowUpdate > WINDOW_UPDATE_INTERVAL_MS`,
force `gasMinWindow` to the cycle's current reading and stamp
`lastWindowUpdate`. -/
def windowResetStep (st : SimpleVocState) (c : SampleCycle) : SimpleVocState :=
  if st.baselineEstablished = true ∧
      WINDOW_UPDATE_INTERVAL_MS < c.time - st.lastWindowUpdate then
    { st with gasMinWindow := some c.gas_kOhm, lastWindowUpdate := c.time }
  else st

/-- The simple-VOC part of one sampling cycle of `loop`, in source order:
establishment (lines 449-455), then window reset (lines 457-462), then
`computeSimpleVocIndex` (line 464) whose state component carries the
min-window update. -/
def baselineStep (st : SimpleVocState) (c : SampleCycle) : SimpleVocState :=
  (computeSimpleVocIndex (windowResetStep (establishStep st c) c) c.gas_kOhm).2

/-- The simple-VOC state after running a list of sampling cycles from boot. -/
def runCycles (cs : List SampleCycle) : SimpleVocState :=
  cs.foldl baselineStep initialState

/-- Pressure-unit disambiguation of `loop` (main.cpp lines 437-441): a raw
magnitude above `5000` is taken as Pa and divided by 100, otherwise it is
already hPa. -/
def normalizePressure (rawPress : ℚ) : ℚ :=
  if 5000 < rawPress then rawPress / 100 else rawPress

/-- Gas-resistance normalization of `loop` (main.cpp line 442): ohms to
kilo-ohms. -/
def normalizeGas (rawGasOhm : ℚ) : ℚ := rawGasOhm / 1000

/-- Global `gSeaLevelPressure` (main.cpp line 294); never reassigned anywhere in
the program. -/
def gSeaLevelPressure : ℝ := 1013.25

/-- Function `calcAltitude` (main.cpp lines 538-540).  The source reads its sea-level
reference from the global `gSeaLevelPressure`; it is exposed here as the
second argument. -/
noncomputable def calcAltitude (pressure_hPa seaLevel_hPa : ℝ) : ℝ :=
  44330 * (1 - (pressure_hPa / seaLevel_hPa) ^ (0.1903 : ℝ))

/-- The metric the display layer treats as authoritative. -/
inductive MetricSource where
  | Vendor
  | Fallback
deriving Repr, DecidableEq

/-- Metric selection of `updateDynamicUI` (main.cpp lines 613-620): when
`vals.iaqAccuracy < 2` the simple-VOC fallback index is shown, otherwise the
vendor IAQ value.  A pure function of the cycle's accuracy. -/
def selectMetric (iaqAccuracy : ℕ) : MetricSource :=
  if iaqAccuracy < 2 then MetricSource.Fallback else MetricSource.Vendor

/-- Per-cycle metric selections for a sequence of vendor accuracies. -/
def selections (accs : List ℕ) : List MetricSource := accs.map selectMetric

/-- The maximal vendor accuracy, compared against literally in `loop`
(main.cpp line 471, `vals.iaqAccuracy == 3`). -/
def MAX_CONFIDENCE : ℕ := 3

/-- The save interval used by `loop` (main.cpp line 471, the literal
`5UL * 60UL * 1000UL`). -/
def MIN_SAVE_INTERVAL_MS : ℕ := 5 * 60 * 1000

/-- Save gate of `loop` (main.cpp line 471): save exactly when
`vals.iaqAccuracy == 3` and `now - lastStateSave >= 5 minutes`. -/
def shouldSave (iaqAccuracy now lastStateSave : ℕ) : Bool :=
  iaqAccuracy == MAX_CONFIDENCE && MIN_SAVE_INTERVAL_MS ≤ now - lastStateSave

/-- Persistence block of `loop` (main.cpp lines 470-474): when the gate
fires, `saveState()` is attempted and `lastStateSave = now` runs
unconditionally afterwards.  `writeOk` models whether `saveState`'s
`envSensor.getState`/`prefs.putBytes` path reports success; the updated
timestamp does not depend on it.  Returns (save attempted, new
`lastStateSave`). -/
def saveStep (iaqAccuracy now lastStateSave : ℕ) (writeOk : Bool) : Bool × ℕ :=
  if shouldSave iaqAccuracy now lastStateSave then (true, now)
  else (false, lastStateSave)

/-- The times at which the save gate fires over a run of cycles, each cycle
given as (accuracy, now), threading `lastStateSave` exactly as `loop` does. -/
def saveTimes (lastStateSave : ℕ) : List (ℕ × ℕ) → List ℕ
  | [] => []
  | (acc, now) :: rest =>
    if shouldSave acc now lastStateSave then now :: saveTimes now rest
    else saveTimes lastStateSave rest

/-- Pipeline-relevant state touched by `loop` outside the simple-VOC
globals: the auto-refresh stamp `lastUpdate` and the persistence stamp
`lastStateSave` (main.cpp lines 304-307). -/
structure LoopState where
  voc : SimpleVocState
  lastUpdate : ℕ
  lastStateSave : ℕ
deriving Repr, DecidableEq

/-- Effect of `initBsec2` (main.cpp lines 500-536) on the pipeline state.
The body only performs external collaborator calls (`envSensor.begin`,
`loadState`, `setTemperatureOffset`, `updateSubscription`); none of the
simple-VOC globals nor `lastStateSave` is assigned, and on the success path
the last statement sets `lastUpdate = 0` (line 534).  `ok` models whether
the begin/subscription calls succeeded (on failure the function returns
before reaching `lastUpdate = 0`). -/
def initBsec2Effect (ok : Bool) (ls : LoopState) : LoopState :=
  if ok then { ls with lastUpdate := 0 } else ls

/-- A loop state whose baseline has been established, as arises after a
successful warm-up: used to exhibit the behaviour of a reinitialize
request received while established. -/
def establishedExample : LoopState :=
  { voc := { baselineEstablished := true
             gasBaseline := some 100
             gasMinWindow := some 90
             lastWindowUpdate := 150000 }
    lastUpdate := 150000
    lastStateSave := 0 }

/-! ## Helper lemmas about `computeSimpleVocIndex` -/

/-- The index component of `computeSimpleVocIndex` depends only on the
established flag and the baseline, never on `gasMinWindow` or
`lastWindowUpdate`. -/
theorem computeSimpleVocIndex_fst (st : SimpleVocState) (g : ℚ) :
    (computeSimpleVocIndex st g).1 =
      if st.baselineEstablished = false then none
      else
        match st.gasBaseline with
        | none => none
        | some b =>
          if b ≤ 0 then none
          else some (if (b - g) / b * 100 < 0 then 0 else (b - g) / b * 100) := by
  unfold computeSimpleVocIndex
  rcases hE : st.baselineEstablished with _ | _
  · simp
  · simp only [Bool.true_eq_false, if_false]
    rcases hB : st.gasBaseline with _ | b
    · rfl
    · by_cases hb : b ≤ 0 <;> simp [hb]

/-- Function `computeSimpleVocIndex` only ever writes the `gasMinWindow` field of
the state. -/
theorem computeSimpleVocIndex_state (st : SimpleVocState) (g : ℚ) :
    (computeSimpleVocIndex st g).2.baselineEstablished = st.baselineEstablished
    ∧ (computeSimpleVocIndex st g).2.gasBaseline = st.gasBaseline
    ∧ (computeSimpleVocIndex st g).2.lastWindowUpdate = st.lastWindowUpdate := by
  unfold computeSimpleVocIndex
  rcases hE : st.baselineEstablished with _ | _
  · simp [hE]
  · simp only [Bool.true_eq_false, if_false]
    rcases hB : st.gasBaseline with _ | b
    · simp [hE, hB]
    · by_cases hb : b ≤ 0 <;> simp [hb, hE, hB]

/-- When the state's window minimum equals the current reading,
`computeSimpleVocIndex` leaves it at that reading. -/
theorem computeSimpleVocIndex_min_self (st : SimpleVocState) (g : ℚ)
    (h : st.gasMinWindow = some g) :
    (computeSimpleVocIndex st g).2.gasMinWindow = some g := by
  unfold computeSimpleVocIndex
  rcases hE : st.baselineEstablished with _ | _
  · simpa using h
  · simp only [Bool.true_eq_false, if_false]
    rcases hB : st.gasBaseline with _ | b
    · simpa using h
    · by_cases hb : b ≤ 0 <;> simp [hb, h, lt_irrefl]

/-! ## Helper lemmas about the per-cycle step -/

/-- Before the warm-up deadline an unestablished state is completely
untouched by a sampling cycle. -/
theorem baselineStep_noop_before_warmup (st : SimpleVocState) (c : SampleCycle)
    (h : st.baselineEstablished = false) (ht : c.time ≤ BASELINE_DELAY_MS) :
    baselineStep st c = st := by
  have h1 : establishStep st c = st := by
    unfold establishStep
    exact if_neg (by rintro ⟨-, h2⟩; omega)
  have h2 : windowResetStep st c = st := by
    unfold windowResetStep
    exact if_neg (by rintro ⟨hcontra, -⟩; rw [h] at hcontra; cases hcontra)
  unfold baselineStep
  rw [h1, h2]
  unfold computeSimpleVocIndex
  rw [if_pos h]

/-- Once established, a sampling cycle keeps the state established and
never rewrites the baseline: establishment is terminal and fires at most
once. -/
theorem baselineStep_preserves_established (st : SimpleVocState) (c : SampleCycle)
    (h : st.baselineEstablished = true) :
    (baselineStep st c).baselineEstablished = true
    ∧ (baselineStep st c).gasBaseline = st.gasBaseline := by
  unfold baselineStep establishStep
  rw [if_neg (by rintro ⟨h1, -⟩; rw [h] at h1; cases h1)]
  have hw : (windowResetStep st c).baselineEstablished = st.baselineEstablished
      ∧ (windowResetStep st c).gasBaseline = st.gasBaseline := by
    unfold windowResetStep
    split_ifs <;> exact ⟨rfl, rfl⟩
  obtain ⟨hc1, hc2, -⟩ := computeSimpleVocIndex_state (windowResetStep st c) c.gas_kOhm
  exact ⟨by rw [hc1, hw.1, h], by rw [hc2, hw.2]⟩

/-- A run in which every cycle happens at or before the warm-up deadline
leaves the boot state untouched. -/
theorem runCycles_unestablished (pre : List SampleCycle) :
    (∀ c ∈ pre, c.time ≤ BASELINE_DELAY_MS) → runCycles pre = initialState := by
  unfold runCycles
  induction pre with
  | nil => intro _; rfl
  | cons c rest ih =>
    intro h
    rw [List.foldl_cons,
      baselineStep_noop_before_warmup initialState c rfl (h c (List.mem_cons_self c rest))]
    exact ih fun c' hc' => h c' (List.mem_cons_of_mem c hc')

/-- Establishment is preserved, together with the baseline value, by any
further run of cycles. -/
theorem foldl_preserves_established (post : List SampleCycle) :
    ∀ st : SimpleVocState, st.baselineEstablished = true →
      (List.foldl baselineStep st post).baselineEstablished = true
      ∧ (List.foldl baselineStep st post).gasBaseline = st.gasBaseline := by
  induction post with
  | nil => intro st h; exact ⟨h, rfl⟩
  | cons c rest ih =>
    intro st h
    rw [List.foldl_cons]
    obtain ⟨h1, h2⟩ := baselineStep_preserves_established st c h
    obtain ⟨h3, h4⟩ := ih (baselineStep st c) h1
    exact ⟨h3, h4.trans h2⟩

/-- The first strictly-post-deadline cycle processed from the boot state
establishes the baseline at that cycle's reading, initialises the window
minimum to it, and stamps the window timer. -/
theorem baselineStep_establishes (c : SampleCycle)
    (hc : BASELINE_DELAY_MS < c.time) :
    baselineStep initialState c =
      { baselineEstablished := true
        gasBaseline := some c.gas_kOhm
        gasMinWindow := some c.gas_kOhm
        lastWindowUpdate := c.time } := by
  have h1 : establishStep initialState c =
      { baselineEstablished := true, gasBaseline := some c.gas_kOhm,
        gasMinWindow := some c.gas_kOhm, lastWindowUpdate := 0 } := by
    unfold establishStep initialState
    rw [if_pos ⟨rfl, hc⟩]
  have h2 : windowResetStep
      { baselineEstablished := true, gasBaseline := some c.gas_kOhm,
        gasMinWindow := some c.gas_kOhm, lastWindowUpdate := 0 } c =
      { baselineEstablished := true, gasBaseline := some c.gas_kOhm,
        gasMinWindow := some c.gas_kOhm, lastWindowUpdate := c.time } := by
    unfold windowResetStep
    rw [if_pos ⟨rfl, by
      show WINDOW_UPDATE_INTERVAL_MS < c.time - 0
      unfold BASELINE_DELAY_MS at hc
      unfold WINDOW_UPDATE_INTERVAL_MS
      omega⟩]
  unfold baselineStep
  rw [h1, h2]
  by_cases hb : c.gas_kOhm ≤ 0
  · simp [computeSimpleVocIndex, hb]
  · simp [computeSimpleVocIndex, hb, lt_irrefl]

/-! ## Claim theorems -/

/-- C2 (counterexample): the claim says the baseline is established at the
first sampling cycle *at or after* `boot_time + WARMUP_DELAY`, but at a
cycle occurring exactly at `BASELINE_DELAY_MS` (2 minutes after boot, with
`boot_time = 0`) the tracker remains unestablished, because the source guard
is the strict `now > BASELINE_DELAY_MS`. -/
theorem baseline_not_established_at_exact_warmup_boundary :
    (runCycles [{ time := BASELINE_DELAY_MS, gas_kOhm := 50 }]).baselineEstablished = false
    ∧ (runCycles [{ time := BASELINE_DELAY_MS, gas_kOhm := 50 }]).gasBaseline = none := by
  constructor <;> rfl

/-- C2 (amended): for every cycle trace starting unestablished, the tracker
transitions to established exactly once, at the first sampling cycle whose
time is strictly after `boot_time + WARMUP_DELAY` (2 minutes): every cycle
at or before the deadline leaves the boot state untouched, the first
strictly-later cycle sets the baseline to that cycle's reading and
initialises the window minimum to the same value, and every continuation
keeps the state established with that same baseline. -/
theorem baseline_established_once_strictly_after_warmup
    (pre post : List SampleCycle) (c : SampleCycle)
    (hpre : ∀ c' ∈ pre, c'.time ≤ BASELINE_DELAY_MS)
    (hc : BASELINE_DELAY_MS < c.time) :
    (runCycles pre).baselineEstablished = false
    ∧ (runCycles pre).gasBaseline = none
    ∧ (runCycles pre).gasMinWindow = none
    ∧ (runCycles (pre ++ [c])).baselineEstablished = true
    ∧ (runCycles (pre ++ [c])).gasBaseline = some c.gas_kOhm
    ∧ (runCycles (pre ++ [c])).gasMinWindow = some c.gas_kOhm
    ∧ (runCycles (pre ++ c :: post)).baselineEstablished = true
    ∧ (runCycles (pre ++ c :: post)).gasBaseline = some c.gas_kOhm := by
  have hpre0 : runCycles pre = initialState := runCycles_unestablished pre hpre
  have hone : runCycles (pre ++ [c]) =
      { baselineEstablished := true, gasBaseline := some c.gas_kOhm,
        gasMinWindow := some c.gas_kOhm, lastWindowUpdate := c.time } := by
    unfold runCycles at hpre0 ⊢
    rw [List.foldl_append, hpre0, List.foldl_cons, List.foldl_nil,
      baselineStep_establishes c hc]
  have hrest : runCycles (pre ++ c :: post) =
      List.foldl baselineStep (runCycles (pre ++ [c])) post := by
    unfold runCycles
    rw [show pre ++ c :: post = (pre ++ [c]) ++ post by simp, List.foldl_append]
  obtain ⟨hp1, hp2⟩ := foldl_preserves_established post (runCycles (pre ++ [c]))
    (by rw [hone])
  refine ⟨by rw [hpre0]; rfl, by rw [hpre0]; rfl, by rw [hpre0]; rfl,
    by rw [hone], by rw [hone], by rw [hone], by rw [hrest]; exact hp1, ?_⟩
  rw [hrest, hp2, hone]

/-- C2 (witness): concrete instantiation with a pre-warm-up cycle at 5 s, the
establishing cycle at 120001 ms reading 42 kΩ, and one later cycle. -/
theorem baseline_established_once_strictly_after_warmup_witness :
    ((∀ c' ∈ ([{ time := 5000, gas_kOhm := 10 }] : List SampleCycle),
        c'.time ≤ BASELINE_DELAY_MS)
      ∧ BASELINE_DELAY_MS < 120001)
    ∧ (runCycles [{ time := 5000, gas_kOhm := 10 }]).baselineEstablished = false
    ∧ (runCycles ([{ time := 5000, gas_kOhm := 10 }] ++
        [{ time := 120001, gas_kOhm := 42 }])).gasBaseline = some 42
    ∧ (runCycles ([{ time := 5000, gas_kOhm := 10 }] ++
        { time := 120001, gas_kOhm := 42 } ::
          [{ time := 130000, gas_kOhm := 7 }])).gasBaseline = some 42 := by
  have h := baseline_established_once_strictly_after_warmup
    [{ time := 5000, gas_kOhm := 10 }] [{ time := 130000, gas_kOhm := 7 }]
    { time := 120001, gas_kOhm := 42 } (by decide) (by decide)
  exact ⟨⟨by decide, by decide⟩, h.1, h.2.2.2.2.1, h.2.2.2.2.2.2.2⟩

/-- C5: while established, whenever the window-reset clock has elapsed
(`now - lastWindowUpdate > WINDOW_UPDATE_INTERVAL_MS`), the sampling cycle
force-resets `gasMinWindow` to the cycle's current reading — regardless of
any (possibly strictly lower) minimum accumulated in the prior window,
because the reset block runs before `computeSimpleVocIndex`'s min-tracking
update — and stamps `lastWindowUpdate` with the cycle time. -/
theorem window_reset_forces_current_reading (st : SimpleVocState) (c : SampleCycle)
    (hest : st.baselineEstablished = true)
    (hdue : WINDOW_UPDATE_INTERVAL_MS < c.time - st.lastWindowUpdate) :
    (baselineStep st c).gasMinWindow = some c.gas_kOhm
    ∧ (baselineStep st c).lastWindowUpdate = c.time := by
  have h1 : establishStep st c = st := by
    unfold establishStep
    exact if_neg (by rintro ⟨hcontra, -⟩; rw [hest] at hcontra; cases hcontra)
  have h2 : windowResetStep st c =
      { st with gasMinWindow := some c.gas_kOhm, lastWindowUpdate := c.time } := by
    unfold windowResetStep
    rw [if_pos ⟨hest, hdue⟩]
  unfold baselineStep
  rw [h1, h2]
  refine ⟨computeSimpleVocIndex_min_self _ c.gas_kOhm rfl, ?_⟩
  exact (computeSimpleVocIndex_state _ c.gas_kOhm).2.2

/-- C5 (witness): an established state whose prior window minimum 40 kΩ is
strictly below the reset cycle's reading 80 kΩ still ends the cycle with
window minimum 80 kΩ. -/
theorem window_reset_forces_current_reading_witness :
    (({ baselineEstablished := true, gasBaseline := some 100,
        gasMinWindow := some 40, lastWindowUpdate := 0 } : SimpleVocState).baselineEstablished = true
      ∧ WINDOW_UPDATE_INTERVAL_MS <
          ({ time := 40000, gas_kOhm := 80 } : SampleCycle).time -
          ({ baselineEstablished := true, gasBaseline := some 100,
             gasMinWindow := some 40, lastWindowUpdate := 0 } : SimpleVocState).lastWindowUpdate)
    ∧ (baselineStep
        { baselineEstablished := true, gasBaseline := some 100,
          gasMinWindow := some 40, lastWindowUpdate := 0 }
        { time := 40000, gas_kOhm := 80 }).gasMinWindow = some 80 :=
  ⟨⟨rfl, by decide⟩,
    (window_reset_forces_current_reading
      { baselineEstablished := true, gasBaseline := some 100,
        gasMinWindow := some 40, lastWindowUpdate := 0 }
      { time := 40000, gas_kOhm := 80 } rfl (by decide)).1⟩

/-- C1 (counterexample): the claim says an external reinitialize request
(the BtnC press re-running `initBsec2`) resets the entire baseline state to
unestablished for every prior state; but from an established state, after a
successful `initBsec2`, `baselineEstablished` is still `true` — `initBsec2`
assigns none of the simple-VOC globals. -/
theorem reinit_does_not_reset_baseline_cex :
    ¬ ((initBsec2Effect true establishedExample).voc.baselineEstablished = false
        ∧ (initBsec2Effect true establishedExample).voc.gasBaseline = none
        ∧ (initBsec2Effect true establishedExample).voc.gasMinWindow = none) := by
  decide

/-- C1 (amended): the reinitialize request (BtnC → `initBsec2`) re-invokes
sensor/estimator setup and, on success, resets only the auto-refresh stamp
`lastUpdate` to 0; the whole simple-VOC baseline state and the persistence
stamp `lastStateSave` are left exactly as they were, for every prior state
and either outcome of the setup calls. -/
theorem reinit_preserves_baseline_state (ok : Bool) (ls : LoopState) :
    (initBsec2Effect ok ls).voc = ls.voc
    ∧ (initBsec2Effect ok ls).lastStateSave = ls.lastStateSave
    ∧ (ok = true → (initBsec2Effect ok ls).lastUpdate = 0) := by
  cases ok <;> simp [initBsec2Effect]

/-- C1 (witness): the amended statement at a concrete established state and
a successful reinitialize. -/
theorem reinit_preserves_baseline_state_witness :
    (true = true)
    ∧ (initBsec2Effect true establishedExample).voc = establishedExample.voc
    ∧ (initBsec2Effect true establishedExample).lastUpdate = 0 :=
  ⟨rfl, (reinit_preserves_baseline_state true establishedExample).1,
    (reinit_preserves_baseline_state true establishedExample).2.2 rfl⟩

/-- C3: the estimator `computeSimpleVocIndex` returns the non-numeric "unavailable" result
(`NAN`, embedded as `none`) exactly when the baseline is unestablished or
the baseline value is non-positive; otherwise it returns
`(baseline - current) / baseline * 100` clamped below at `0`, so the numeric
result is never negative, and a reading strictly above the baseline yields
exactly `0`. -/
theorem fallback_index_unavailable_iff_and_clamped (st : SimpleVocState) (g : ℚ) :
    (st.baselineEstablished = false → (computeSimpleVocIndex st g).1 = none)
    ∧ (∀ b, st.gasBaseline = some b →
        ((computeSimpleVocIndex st g).1 = none ↔
          st.baselineEstablished = false ∨ b ≤ 0))
    ∧ (∀ b, st.gasBaseline = some b → st.baselineEstablished = true → 0 < b →
        (computeSimpleVocIndex st g).1 = some (max 0 ((b - g) / b * 100)))
    ∧ (∀ i, (computeSimpleVocIndex st g).1 = some i → 0 ≤ i)
    ∧ (∀ b, st.gasBaseline = some b → st.baselineEstablished = true → 0 < b →
        b < g → (computeSimpleVocIndex st g).1 = some 0) := by
  obtain ⟨est, bopt, mw, lw⟩ := st
  rcases est with _ | _
  · simp [computeSimpleVocIndex]
  · rcases bopt with _ | b
    · simp [computeSimpleVocIndex]
    · by_cases hb : b ≤ 0
      · refine ⟨fun h => by simp at h, ?_, ?_, ?_, ?_⟩
        · rintro b' hb'
          injection hb' with hb''
          subst hb''
          simp [computeSimpleVocIndex, hb]
        · rintro b' hb' - hpos
          injection hb' with hb''
          subst hb''
          exact absurd hpos (not_lt.mpr hb)
        · rintro i hi
          rw [show (computeSimpleVocIndex
              ⟨true, some b, mw, lw⟩ g).1 = none by simp [computeSimpleVocIndex, hb]] at hi
          cases hi
        · rintro b' hb' - hpos -
          injection hb' with hb''
          subst hb''
          exact absurd hpos (not_lt.mpr hb)
      · have hbpos : 0 < b := lt_of_not_le hb
        have hiff : max 0 ((b - g) / b * 100) =
            if (b - g) / b * 100 < 0 then 0 else (b - g) / b * 100 := by
          rcases lt_or_le ((b - g) / b * 100) 0 with h | h
          · rw [if_pos h, max_eq_left h.le]
          · rw [if_neg (not_lt.mpr h), max_eq_right h]
        refine ⟨fun h => by simp at h, ?_, ?_, ?_, ?_⟩
        · rintro b' hb'
          injection hb' with hb''
          subst hb''
          simp [computeSimpleVocIndex, hb]
        · rintro b' hb' - -
          injection hb' with hb''
          subst hb''
          simp [computeSimpleVocIndex, hb, hiff]
        · rintro i hi
          rw [show (computeSimpleVocIndex ⟨true, some b, mw, lw⟩ g).1 =
              some (if (b - g) / b * 100 < 0 then 0 else (b - g) / b * 100) by
            simp [computeSimpleVocIndex, hb]] at hi
          injection hi with hi
          subst hi
          split_ifs with hneg
          · exact le_refl 0
          · exact le_of_not_lt hneg
        · rintro b' hb' - - hgt
          injection hb' with hb''
          subst hb''
          have hidx : (b - g) / b * 100 < 0 :=
            mul_neg_of_neg_of_pos
              (div_neg_of_neg_of_pos (sub_neg.mpr hgt) hbpos) (by norm_num)
          simp [computeSimpleVocIndex, hb, hidx]

/-- C3 (witness): with an established baseline of 100 kΩ and a reading of
120 kΩ above it (improving air), the index is exactly 0, not negative. -/
theorem fallback_index_unavailable_iff_and_clamped_witness :
    (({ baselineEstablished := true, gasBaseline := some 100,
        gasMinWindow := none, lastWindowUpdate := 0 } : SimpleVocState).gasBaseline = some 100
      ∧ (0 : ℚ) < 100 ∧ (100 : ℚ) < 120)
    ∧ (computeSimpleVocIndex
        { baselineEstablished := true, gasBaseline := some 100,
          gasMinWindow := none, lastWindowUpdate := 0 } 120).1 = some 0 :=
  ⟨⟨rfl, by norm_num, by norm_num⟩,
    (fallback_index_unavailable_iff_and_clamped
      { baselineEstablished := true, gasBaseline := some 100,
        gasMinWindow := none, lastWindowUpdate := 0 } 120).2.2.2.2
      100 rfl rfl (by norm_num) (by norm_num)⟩

/-- C4: the classifier assigns exactly one label per exclusive lower-bound
band — `< 2` excellent, `[2, 10)` normal, `[10, 25)` elevated, `[25, 50)`
poor, `≥ 50` severe — so an index of exactly 25 maps to the poor label, the
unavailable result maps to the distinct building label, and no numeric index
ever maps to the building label. -/
theorem classifySimpleVoc_bands (i : ℚ) :
    classifySimpleVoc none = VocLabel.Building
    ∧ (i < 2 → classifySimpleVoc (some i) = VocLabel.Excellent)
    ∧ (2 ≤ i → i < 10 → classifySimpleVoc (some i) = VocLabel.Normal)
    ∧ (10 ≤ i → i < 25 → classifySimpleVoc (some i) = VocLabel.Elevated)
    ∧ (25 ≤ i → i < 50 → classifySimpleVoc (some i) = VocLabel.Poor)
    ∧ (50 ≤ i → classifySimpleVoc (some i) = VocLabel.Severe)
    ∧ classifySimpleVoc (some 25) = VocLabel.Poor
    ∧ classifySimpleVoc (some i) ≠ VocLabel.Building := by
  have hsome : ∀ j : ℚ, classifySimpleVoc (some j) =
      if j < 2 then VocLabel.Excellent
      else if j < 10 then VocLabel.Normal
      else if j < 25 then VocLabel.Elevated
      else if j < 50 then VocLabel.Poor
      else VocLabel.Severe := fun j => rfl
  refine ⟨rfl, ?_, ?_, ?_, ?_, ?_, ?_, ?_⟩
  · intro h
    rw [hsome, if_pos h]
  · intro h1 h2
    rw [hsome, if_neg (not_lt.mpr (by linarith)), if_pos h2]
  · intro h1 h2
    rw [hsome, if_neg (not_lt.mpr (by linarith)),
      if_neg (not_lt.mpr (by linarith)), if_pos h2]
  · intro h1 h2
    rw [hsome, if_neg (not_lt.mpr (by linarith)),
      if_neg (not_lt.mpr (by linarith)), if_neg (not_lt.mpr (by linarith)),
      if_pos h2]
  · intro h1
    rw [hsome, if_neg (not_lt.mpr (by linarith)),
      if_neg (not_lt.mpr (by linarith)), if_neg (not_lt.mpr (by linarith)),
      if_neg (not_lt.mpr (by linarith))]
  · rw [hsome]
    norm_num
  · rw [hsome]
    split_ifs <;> intro h <;> cases h

/-- C4 (witness): the band edges at a concrete index of exactly 25. -/
theorem classifySimpleVoc_bands_witness :
    ((25 : ℚ) ≤ 25 ∧ (25 : ℚ) < 50)
    ∧ classifySimpleVoc (some 25) = VocLabel.Poor :=
  ⟨⟨by norm_num, by norm_num⟩,
    (classifySimpleVoc_bands 25).2.2.2.2.1 (by norm_num) (by norm_num)⟩

/-- C10: the fallback index is independent of the tracked window minimum:
two established states agreeing on the baseline (however their window
minima and window timers differ) give the same index and the same label for
every current reading — the window minimum is written by the estimator but
never read into the result. -/
theorem voc_index_independent_of_window_min (s1 s2 : SimpleVocState) (g : ℚ)
    (h1 : s1.baselineEstablished = true) (h2 : s2.baselineEstablished = true)
    (hb : s1.gasBaseline = s2.gasBaseline) :
    (computeSimpleVocIndex s1 g).1 = (computeSimpleVocIndex s2 g).1
    ∧ classifySimpleVoc (computeSimpleVocIndex s1 g).1
        = classifySimpleVoc (computeSimpleVocIndex s2 g).1 := by
  have key : (computeSimpleVocIndex s1 g).1 = (computeSimpleVocIndex s2 g).1 := by
    rw [computeSimpleVocIndex_fst, computeSimpleVocIndex_fst, h1, h2, hb]
  exact ⟨key, by rw [key]⟩

/-- C10 (witness): two established states with baseline 100 kΩ but window
minima 30 kΩ and 70 kΩ produce the same index for the reading 80 kΩ. -/
theorem voc_index_independent_of_window_min_witness :
    (({ baselineEstablished := true, gasBaseline := some 100,
        gasMinWindow := some 30, lastWindowUpdate := 0 } : SimpleVocState).baselineEstablished = true
      ∧ ({ baselineEstablished := true, gasBaseline := some 100,
           gasMinWindow := some 70, lastWindowUpdate := 5 } : SimpleVocState).baselineEstablished = true)
    ∧ (computeSimpleVocIndex
        { baselineEstablished := true, gasBaseline := some 100,
          gasMinWindow := some 30, lastWindowUpdate := 0 } 80).1
      = (computeSimpleVocIndex
          { baselineEstablished := true, gasBaseline := some 100,
            gasMinWindow := some 70, lastWindowUpdate := 5 } 80).1 :=
  ⟨⟨rfl, rfl⟩,
    (voc_index_independent_of_window_min
      { baselineEstablished := true, gasBaseline := some 100,
        gasMinWindow := some 30, lastWindowUpdate := 0 }
      { baselineEstablished := true, gasBaseline := some 100,
        gasMinWindow := some 70, lastWindowUpdate := 5 } 80 rfl rfl rfl).1⟩

/-- Consecutive save-gate firings are at least `MIN_SAVE_INTERVAL_MS` apart,
and every firing is at least that interval after the threaded
`lastStateSave`. -/
theorem saveTimes_chain (cs : List (ℕ × ℕ)) :
    ∀ last : ℕ,
      List.Chain' (fun a b => a + MIN_SAVE_INTERVAL_MS ≤ b) (saveTimes last cs)
      ∧ ∀ t ∈ saveTimes last cs, last + MIN_SAVE_INTERVAL_MS ≤ t := by
  induction cs with
  | nil => intro last; exact ⟨List.chain'_nil, by intro t ht; cases ht⟩
  | cons p rest ih =>
    intro last
    obtain ⟨acc, now⟩ := p
    have hstep : saveTimes last ((acc, now) :: rest) =
        if shouldSave acc now last then now :: saveTimes now rest
        else saveTimes last rest := rfl
    by_cases h : shouldSave acc now last = true
    · have hnl : last + MIN_SAVE_INTERVAL_MS ≤ now := by
        unfold shouldSave MAX_CONFIDENCE at h
        rw [Bool.and_eq_true, beq_iff_eq, decide_eq_true_eq] at h
        unfold MIN_SAVE_INTERVAL_MS at h ⊢
        omega
      have hrest := ih now
      rw [hstep, if_pos h]
      refine ⟨List.chain'_cons'.mpr ⟨?_, hrest.1⟩, ?_⟩
      · intro y hy
        exact hrest.2 y (List.mem_of_mem_head? hy)
      · intro t ht
        rcases List.mem_cons.mp ht with rfl | ht'
        · exact hnl
        · have := hrest.2 t ht'
          omega
    · rw [hstep, if_neg h]
      exact ih last

/-- C6: the save gate fires exactly when the vendor accuracy equals
`MAX_CONFIDENCE` (3) and at least `MIN_SAVE_INTERVAL_MS` has elapsed since
`lastStateSave`; it never fires below maximal accuracy; the attempt flag
and updated `lastStateSave` do not depend on whether the underlying write
reports success, and the timestamp advances to `now` whenever the gate
fires; consequently over any run of cycles consecutive firings are at least
`MIN_SAVE_INTERVAL_MS` apart. -/
theorem persistence_schedule_spec :
    (∀ acc now last, shouldSave acc now last = true ↔
      acc = MAX_CONFIDENCE ∧ MIN_SAVE_INTERVAL_MS ≤ now - last)
    ∧ (∀ acc now last, acc ≠ MAX_CONFIDENCE → shouldSave acc now last = false)
    ∧ (∀ acc now last ok, saveStep acc now last ok = saveStep acc now last true)
    ∧ (∀ acc now last ok,
        (saveStep acc now last ok).1 = shouldSave acc now last)
    ∧ (∀ acc now last ok, shouldSave acc now last = true →
        (saveStep acc now last ok).2 = now)
    ∧ (∀ last cs, List.Chain'
        (fun a b => a + MIN_SAVE_INTERVAL_MS ≤ b) (saveTimes last cs)) := by
  have hiff : ∀ acc now last : ℕ, shouldSave acc now last = true ↔
      acc = MAX_CONFIDENCE ∧ MIN_SAVE_INTERVAL_MS ≤ now - last := by
    intro acc now last
    unfold shouldSave
    rw [Bool.and_eq_true, beq_iff_eq, decide_eq_true_eq]
  refine ⟨hiff, ?_, ?_, ?_, ?_, ?_⟩
  · intro acc now last hacc
    rcases h : shouldSave acc now last with _ | _
    · rfl
    · exact absurd ((hiff acc now last).mp h).1 hacc
  · intro acc now last ok
    rfl
  · intro acc now last ok
    unfold saveStep
    split_ifs with h
    · exact h.symm
    · exact (Bool.not_eq_true _).mp h |>.symm
  · intro acc now last ok h
    unfold saveStep
    rw [if_pos h]
  · intro last cs
    exact (saveTimes_chain cs last).1

/-- C6 (witness): below-maximum accuracy 2 never saves even after a long
wait; at accuracy 3 with the interval elapsed the gate fires and the
timestamp advances independently of the write outcome. -/
theorem persistence_schedule_spec_witness :
    ((2 : ℕ) ≠ MAX_CONFIDENCE)
    ∧ shouldSave 2 1000000 0 = false
    ∧ shouldSave 3 1000000 0 = true
    ∧ (saveStep 3 1000000 0 false).2 = 1000000 :=
  ⟨by decide, persistence_schedule_spec.2.1 2 1000000 0 (by decide),
    by decide,
    persistence_schedule_spec.2.2.2.2.1 3 1000000 0 false (by decide)⟩

/-- C7: on every cycle the authoritative metric is the fallback index
exactly when the vendor accuracy is below the usable threshold 2, and the
vendor index otherwise; the choice is a pure function of that cycle's
accuracy, so appending a low-confidence cycle to any history immediately
selects the fallback for that cycle, with no latching. -/
theorem metric_selection_by_confidence (acc : ℕ) (history : List ℕ) :
    (selectMetric acc = MetricSource.Fallback ↔ acc < 2)
    ∧ (selectMetric acc = MetricSource.Vendor ↔ 2 ≤ acc)
    ∧ selections (history ++ [acc]) = selections history ++ [selectMetric acc] := by
  refine ⟨?_, ?_, by simp [selections]⟩
  · unfold selectMetric
    split_ifs with h
    · simp [h]
    · simp only [not_lt] at h
      constructor
      · intro hcontra
        cases hcontra
      · intro hlt
        omega
  · unfold selectMetric
    split_ifs with h
    · constructor
      · intro hcontra
        cases hcontra
      · intro hle
        omega
    · simp only [not_lt] at h
      simp [h]

/-- C7 (witness): accuracy 1 (below threshold) selects the fallback, also
after a history of high-confidence cycles. -/
theorem metric_selection_by_confidence_witness :
    ((1 : ℕ) < 2)
    ∧ selectMetric 1 = MetricSource.Fallback
    ∧ selections ([3, 3] ++ [1]) = selections [3, 3] ++ [MetricSource.Fallback] := by
  refine ⟨by decide, (metric_selection_by_confidence 1 [3, 3]).1.mpr (by decide), ?_⟩
  have h := (metric_selection_by_confidence 1 [3, 3]).2.2
  rw [h, (metric_selection_by_confidence 1 [3, 3]).1.mpr (by decide)]

/-- C8: a raw pressure magnitude above the disambiguation threshold 5000 is
divided by 100 (Pa → hPa) and one at or below it is passed through
unchanged; in particular raw `101325` normalizes to `1013.25` and raw
`1013.25` stays `1013.25`; gas resistance is always divided by 1000
(Ω → kΩ); both normalizations are total functions. -/
theorem unit_normalization_spec (p grams : ℚ) :
    (5000 < p → normalizePressure p = p / 100)
    ∧ (p ≤ 5000 → normalizePressure p = p)
    ∧ normalizePressure 101325 = 1013.25
    ∧ normalizePressure 1013.25 = 1013.25
    ∧ 1000 * normalizeGas grams = grams
    ∧ normalizeGas 150000 = 150 := by
  refine ⟨?_, ?_, ?_, ?_, ?_, by norm_num [normalizeGas]⟩
  · intro h
    unfold normalizePressure
    rw [if_pos h]
  · intro h
    unfold normalizePressure
    rw [if_neg (not_lt.mpr h)]
  · norm_num [normalizePressure]
  · norm_num [normalizePressure]
  · unfold normalizeGas
    ring

/-- C8 (witness): the Pa-scale branch at the concrete raw reading 101325. -/
theorem unit_normalization_spec_witness :
    ((5000 : ℚ) < 101325)
    ∧ normalizePressure 101325 = 101325 / 100 :=
  ⟨by norm_num, (unit_normalization_spec 101325 0).1 (by norm_num)⟩

/-- C9: the function `calcAltitude` computes `44330 * (1 - (p / s) ^ 0.1903)` as a pure
function; for every positive sea-level reference it is strictly decreasing
in the pressure argument over positive pressures, and at the reference
pressure itself the altitude is 0. -/
theorem calcAltitude_decreasing_and_zero_at_reference
    (s p1 p2 : ℝ) (hs : 0 < s) (hp1 : 0 < p1) (h12 : p1 < p2) :
    calcAltitude p2 s < calcAltitude p1 s ∧ calcAltitude s s = 0 := by
  constructor
  · unfold calcAltitude
    have hdiv : p1 / s < p2 / s := by gcongr
    have hr : (p1 / s) ^ (0.1903 : ℝ) < (p2 / s) ^ (0.1903 : ℝ) :=
      Real.rpow_lt_rpow (le_of_lt (div_pos hp1 hs)) hdiv (by norm_num)
    linarith
  · unfold calcAltitude
    rw [div_self hs.ne', Real.one_rpow]
    ring

/-- C9 (witness): concrete pressures 1 < 2 against a unit reference, and the
zero altitude at the default sea-level reference 1013.25. -/
theorem calcAltitude_decreasing_and_zero_at_reference_witness :
    ((0 : ℝ) < 1013.25 ∧ (0 : ℝ) < 1 ∧ (1 : ℝ) < 2)
    ∧ calcAltitude 2 1013.25 < calcAltitude 1 1013.25
    ∧ calcAltitude 1013.25 1013.25 = 0 :=
  ⟨⟨by norm_num, by norm_num, by norm_num⟩,
    (calcAltitude_decreasing_and_zero_at_reference 1013.25 1 2
      (by norm_num) (by norm_num) (by norm_num)).1,
    (calcAltitude_decreasing_and_zero_at_reference 1013.25 1 2
      (by norm_num) (by norm_num) (by norm_num)).2⟩
